import Mathlib

/-!
Verification development for the zynoflixott mobile shell
(`src/app/index.tsx` and the unnamed variants).  The development embeds
the `PickerLock` mutual-exclusion gate, the MIME/type resolver, the file
materializer, the file-selection orchestrator and the fullscreen
orientation controller as executable Lean definitions, and proves the
stated properties about them.
-/

namespace Zyno

/-- State of the `PickerLock` class (src/app/index.tsx lines 15-52):
a `locked` flag and a FIFO `queue` of pending waiter callbacks.  Waiter
callbacks are identified by natural numbers; in the source each waiter is
a fresh closure, so identifiers in reachable states are distinct. -/
structure PickerLock where
  locked : Bool
  queue : List Nat
deriving DecidableEq, Repr

/-- `isLocked()` (line 49-51). -/
def PickerLock.isLocked (s : PickerLock) : Bool := s.locked

/-- The three observable operations on the lock: a call to `acquire()`
by waiter `w`, the firing of waiter `w`'s 5000 ms `setTimeout` while it
is still queued (after a grant the timer has been cleared, so the event
is only enabled for queued waiters), and a call to `release()`. -/
inductive LockOp
  | acquire (w : Nat)
  | timeout (w : Nat)
  | release
deriving DecidableEq, Repr

/-- One step of the lock.  Returns the next state together with the list
of promise resolutions `(waiter, value)` emitted by the step, mirroring
src/app/index.tsx lines 19-47:
* `acquire w` while locked pushes `w`'s callback onto the queue and
  resolves nothing yet; while unlocked it sets `locked := true` and
  resolves `true` immediately;
* `timeout w` removes `w` from the queue (`indexOf`/`splice`) and
  resolves `false`;
* `release` sets `locked := false`, shifts the queue, and if a waiter
  was dequeued runs its callback, which resolves `true` (note that the
  callback does not set `locked` back to `true`). -/
def lockStep (s : PickerLock) : LockOp → PickerLock × List (Nat × Bool)
  | .acquire w =>
      if s.locked then ({ s with queue := s.queue ++ [w] }, [])
      else ({ s with locked := true }, [(w, true)])
  | .timeout w =>
      if w ∈ s.queue then ({ s with queue := s.queue.erase w }, [(w, false)])
      else (s, [])
  | .release =>
      match s.queue with
      | [] => ({ locked := false, queue := [] }, [])
      | w :: rest => ({ locked := false, queue := rest }, [(w, true)])

/-- Run a sequence of lock operations, accumulating all emitted
promise resolutions in order. -/
def lockRun (s : PickerLock) : List LockOp → PickerLock × List (Nat × Bool)
  | [] => (s, [])
  | op :: ops =>
      let step := lockStep s op
      let rest := lockRun step.1 ops
      (rest.1, step.2 ++ rest.2)

/-! ## Strings: JavaScript helpers used by the source -/

/-- JavaScript `a || b` on an optional string with `b` a string:
`undefined` and the empty string are falsy. -/
def jsOr (a : Option String) (b : String) : String :=
  match a with
  | some s => if s = "" then b else s
  | none => b

/-- JavaScript `a || b` on two optional strings. -/
def jsOrOpt (a b : Option String) : Option String :=
  match a with
  | some s => if s = "" then b else some s
  | none => b

/-- `p` is a leading segment of `h` (character lists). -/
def leadsList : List Char → List Char → Bool
  | [], _ => true
  | _ :: _, [] => false
  | p :: ps, h :: hs => p == h && leadsList ps hs

/-- Occurrence of `pat` inside a haystack, structural recursion on the
haystack. -/
def containsSub (pat : List Char) : List Char → Bool
  | [] => leadsList pat []
  | h :: hs => leadsList pat (h :: hs) || containsSub pat hs

/-- JavaScript `s.includes(pat)`. -/
def strIncludes (s pat : String) : Bool :=
  containsSub pat.data s.data

/-- JavaScript `accept?.includes(pat)`: `false` when `accept` is
`undefined`. -/
def acceptIncludes (accept : Option String) (pat : String) : Bool :=
  match accept with
  | some a => strIncludes a pat
  | none => false

/-- The segment of a character list after its last `'.'` — the whole
list when no dot occurs.  This is JavaScript `filename.split('.').pop()`
(`split` never yields an empty array, so `pop` returns the segment after
the last separator). -/
def extSegment : List Char → List Char
  | [] => []
  | c :: cs => if c == '.' || cs.contains '.' then extSegment cs else c :: cs

/-- The fixed 19-entry extension table of `getMimeType`
(src/app/index.tsx lines 133-153). -/
def mimeTypes : List (String × String) :=
  [("jpg", "image/jpeg"),
   ("jpeg", "image/jpeg"),
   ("png", "image/png"),
   ("gif", "image/gif"),
   ("webp", "image/webp"),
   ("mp4", "video/mp4"),
   ("mov", "video/quicktime"),
   ("avi", "video/x-msvideo"),
   ("mkv", "video/x-matroska"),
   ("pdf", "application/pdf"),
   ("doc", "application/msword"),
   ("docx", "application/vnd.openxmlformats-officedocument.wordprocessingml.document"),
   ("xls", "application/vnd.ms-excel"),
   ("xlsx", "application/vnd.openxmlformats-officedocument.spreadsheetml.sheet"),
   ("ppt", "application/vnd.ms-powerpoint"),
   ("pptx", "application/vnd.openxmlformats-officedocument.presentationml.presentation"),
   ("txt", "text/plain"),
   ("zip", "application/zip"),
   ("rar", "application/x-rar-compressed")]

/-- First-match association lookup (JavaScript object property read on
the literal table). -/
def lookupStr : List (String × String) → String → Option String
  | [], _ => none
  | (k, v) :: rest, key => if key = k then some v else lookupStr rest key

/-- `getMimeType` (src/app/index.tsx lines 130-156):
`filename.split('.').pop()?.toLowerCase() || ''` looked up in the fixed
table, falling back to `application/octet-stream`. -/
def getMimeType (filename : String) : String :=
  let extension := String.mk ((extSegment filename.data).map Char.toLower)
  (lookupStr mimeTypes extension).getD "application/octet-stream"

/-- Media category chosen by `handleFileSelection`
(src/app/index.tsx lines 221-238): `accept?.includes('image')`, else
`accept?.includes('video')`, else the document picker. -/
inductive PickerKind
  | image
  | video
  | document
deriving DecidableEq, Repr

/-- The category branch of `handleFileSelection`. -/
def resolveCategory (accept : Option String) : PickerKind :=
  if acceptIncludes accept "image" then .image
  else if acceptIncludes accept "video" then .video
  else .document

/-! ## File materialization -/

/-- A picker asset as consumed by the orchestrator (fields `uri`,
`fileName`, `name`, `mimeType`, each possibly absent). -/
structure Asset where
  uri : String
  fileName : Option String
  name : Option String
  mimeType : Option String
deriving DecidableEq, Repr

/-- The `{name, type, base64}` record produced by `processFile`
(src/app/index.tsx lines 115-127). -/
structure EncodedFile where
  name : String
  type : String
  base64 : String
deriving DecidableEq, Repr

/-- One arm of the `result.assets.map(async (asset) => ...)` batch
(src/app/index.tsx lines 251-260): compute the file name
(`asset.fileName || asset.name || file_$now`), the MIME type
(`asset.mimeType || getMimeType(fileName)`), then read the bytes; a
read failure (`read uri = none`) is caught and yields `null`. -/
def processAsset (read : String → Option String) (now : String) (a : Asset) :
    Option EncodedFile :=
  let fileName := jsOr a.fileName (jsOr a.name ("file_" ++ now))
  let mimeType := jsOr a.mimeType (getMimeType fileName)
  match read a.uri with
  | some b64 => some { name := fileName, type := mimeType, base64 := b64 }
  | none => none

/-- The `Promise.all` fan-out over all assets
(src/app/index.tsx lines 250-261). -/
def materialize (read : String → Option String) (now : String)
    (assets : List Asset) : List (Option EncodedFile) :=
  assets.map (processAsset read now)

/-! ## Orchestrator effects and the file-selection session -/

/-- Observable side effects performed by the host orchestrator. -/
inductive Effect
  | toast (msg : String)
  | alertBox (title msg : String)
  | log (msg : String)
  | lockAcquired
  | lockReleased
  | launchImageLibraryImages (allowsEditing : Bool) (qualityTenths : Nat)
      (allowsMultipleSelection : Bool)
  | launchImageLibraryVideos (allowsMultipleSelection : Bool)
  | getDocumentAsync (type : String) (multiple : Bool)
  | injectJavaScript (script : String)
deriving DecidableEq, Repr

/-- Effect classifier: a `release()` call on the gate. -/
def isLockReleased : Effect → Bool
  | .lockReleased => true
  | _ => false

/-- Effect classifier: an invocation of a native picker surface. -/
def isPickerInvocation : Effect → Bool
  | .launchImageLibraryImages _ _ _ => true
  | .launchImageLibraryVideos _ => true
  | .getDocumentAsync _ _ => true
  | _ => false

/-- Effect classifier: a user-visible notification (toast or alert);
console logging is not user-visible. -/
def isUserNotice : Effect → Bool
  | .toast _ => true
  | .alertBox _ _ => true
  | _ => false

/-- Effect classifier: script injection into the embedded content. -/
def isInjection : Effect → Bool
  | .injectJavaScript _ => true
  | _ => false

/-- Outcome of the awaited native picker call, supplied by the
environment: the user cancelled (`result.canceled` or missing assets),
the user selected a list of assets, or the call threw. -/
inductive PickerOutcome
  | canceled
  | selected (assets : List Asset)
  | threw
deriving DecidableEq, Repr

/-- The observable result of one `handleFileSelection` session: its
boolean return value, the lock state it leaves behind, the effects it
performed in order, and the value written to `lastActiveInputId`. -/
structure SessionResult where
  result : Bool
  lock : PickerLock
  effects : List Effect
  lastActive : Option String
deriving DecidableEq, Repr

/-- `handleFileSelection` (src/app/index.tsx lines 203-289).  Inputs:
the platform flag (`Platform.OS === 'android'`), the current lock
state, the filesystem read oracle, the `Date.now()` value, the picker
outcome, and the call arguments `accept`, `multiple`, `targetId`.
Faithful control flow: early return when `isLocked()`; `acquire()`
(immediate grant, since the lock is free); toast; record the target id;
invoke the picker by category; on cancel/empty release and return
`false`; materialize the assets; on zero valid files alert, release,
return `false`; otherwise toast progress, toast success — the
`injectJavaScript(jsCode)` call present in older variants is commented
out, so no injection effect occurs — release and return `true`; a
thrown picker error is caught, logged, alerted, released, `false`. -/
def handleFileSelection (isAndroid : Bool) (s : PickerLock)
    (read : String → Option String) (now : String) (pick : PickerOutcome)
    (accept : Option String) (multiple : Bool) (targetId : String) :
    SessionResult :=
  if s.locked then
    { result := false, lock := s, effects := [], lastActive := none }
  else
    let s1 := (lockStep s (.acquire 0)).1
    let e0 : List Effect :=
      [.lockAcquired] ++ (if isAndroid then [.toast "Selecting file..."] else [])
    let pickerEffect : Effect :=
      match resolveCategory accept with
      | .image => .launchImageLibraryImages (!multiple) 7 multiple
      | .video => .launchImageLibraryVideos multiple
      | .document => .getDocumentAsync (jsOr accept "*/*") multiple
    let e1 := e0 ++ [pickerEffect]
    match pick with
    | .threw =>
        { result := false, lock := (lockStep s1 .release).1,
          effects := e1 ++ [.log "Error selecting file:",
            .alertBox "Error" "Failed to select file. Please try again.",
            .lockReleased],
          lastActive := some targetId }
    | .canceled =>
        { result := false, lock := (lockStep s1 .release).1,
          effects := e1 ++ [.lockReleased],
          lastActive := some targetId }
    | .selected assets =>
        if assets.length = 0 then
          { result := false, lock := (lockStep s1 .release).1,
            effects := e1 ++ [.lockReleased],
            lastActive := some targetId }
        else
          let e2 := e1 ++ (if isAndroid then [.toast "Processing files..."] else [])
          let validFiles := (materialize read now assets).filterMap id
          if validFiles.length = 0 then
            { result := false, lock := (lockStep s1 .release).1,
              effects := e2 ++
                [.alertBox "Error" "Failed to process selected files.",
                 .lockReleased],
              lastActive := some targetId }
          else
            { result := true, lock := (lockStep s1 .release).1,
              effects := e2 ++
                (if isAndroid then
                  [.toast "Uploading files...",
                   .toast "Files attached successfully!"] else []) ++
                [.lockReleased],
              lastActive := some targetId }

/-- The parsed payload of a `fileInputClick` message:
`{type, accept, multiple, id}`. -/
structure RequestData where
  type : Option String
  accept : Option String
  multiple : Bool
  id : String
deriving DecidableEq, Repr

/-- `handleFileInputRequest` (src/app/index.tsx lines 292-315).
`data = none` models a `JSON.parse` failure.  When the lock is held:
an Android-only contention toast, a console log, and an immediate
return — the event is dropped, nothing is queued, no picker runs.
Otherwise the request is forwarded to `handleFileSelection` with
`accept || type`; on a parse error the catch block logs, alerts and —
only if the lock is held, which it is not on this path — would release
it. -/
def handleFileInputRequest (isAndroid : Bool) (s : PickerLock)
    (read : String → Option String) (now : String) (pick : PickerOutcome)
    (data : Option RequestData) : SessionResult :=
  if s.locked then
    { result := false, lock := s,
      effects :=
        (if isAndroid then
          [.toast "Another file selection is in progress"] else []) ++
        [.log "File picker already active. Ignoring request."],
      lastActive := none }
  else
    match data with
    | none =>
        { result := false, lock := s,
          effects := [.log "Error handling file input request:",
            .alertBox "Error" "Failed to select file. Please try again."],
          lastActive := none }
    | some d =>
        handleFileSelection isAndroid s read now pick
          (jsOrOpt d.accept d.type) d.multiple d.id

/-- The body of the signup helper script injected by
`handleFormSubmission`; its content is opaque to the host. -/
def signupFormHelperJS : String :=
  "(function() { /* assist signup form submission */ })(); true;"

/-- `handleFormSubmission` (src/app/index.tsx lines 159-191): for a
signup flow, log and inject the helper script; otherwise do nothing. -/
def handleFormSubmission (_formAction _formMethod : String)
    (isSignup : Bool) : List Effect :=
  if isSignup then
    [.log "Handling signup form submission",
     .injectJavaScript signupFormHelperJS]
  else []

/-! ## Fullscreen orientation controller -/

/-- Device orientation as observed by `getOrientationAsync`. -/
inductive DeviceOrientation
  | portraitUp
  | landscapeLeft
  | landscapeRight
deriving DecidableEq, Repr

/-- State relevant to `handleFullscreenChange`
(src/app/index.tsx lines 318-360): the two React state flags, the
current (locked) orientation, and whether the 5-minute safety timer is
armed. -/
structure FsState where
  isVideoFullscreen : Bool
  statusBarHidden : Bool
  orientation : DeviceOrientation
  timerArmed : Bool
deriving DecidableEq, Repr

/-- `handleFullscreenChange(isFullscreen)`: set both flags, clear any
existing timer, then on entry lock the orientation to landscape and arm
the 5-minute safety timer; on exit lock back to the default
orientation. -/
def handleFullscreenChange (_s : FsState) (isFullscreen : Bool) : FsState :=
  if isFullscreen then
    { isVideoFullscreen := true, statusBarHidden := true,
      orientation := .landscapeLeft, timerArmed := true }
  else
    { isVideoFullscreen := false, statusBarHidden := false,
      orientation := .portraitUp, timerArmed := false }

/-- Events of the fullscreen controller: an inbound
`videoFullscreenChange` message, or the expiry of the armed 5-minute
safety timer (the 5-minute wall-clock bound is abstracted into the
event ordering: `timerFire` is only enabled while the timer is armed,
and a `change false` disarms it). -/
inductive FsEvent
  | change (isFullscreen : Bool)
  | timerFire
deriving DecidableEq, Repr

/-- One step of the fullscreen controller.  The timer callback
(src/app/index.tsx lines 337-350) reads the current orientation and
only reverts when it is still landscape. -/
def fsStep (s : FsState) : FsEvent → FsState
  | .change b => handleFullscreenChange s b
  | .timerFire =>
      if s.timerArmed then
        if s.orientation = .landscapeLeft ∨ s.orientation = .landscapeRight then
          { isVideoFullscreen := false, statusBarHidden := false,
            orientation := .portraitUp, timerArmed := false }
        else { s with timerArmed := false }
      else s

/-! ## Concrete inputs used in closed statements -/

/-- Read oracle for the three-descriptor batch: the second read fails,
the others succeed. -/
def readSecondFails : String → Option String :=
  fun uri => if uri = "u2" then none else if uri = "u1" then some "AAA" else some "CCC"

/-- Three file descriptors for the materializer batch. -/
def threeAssets : List Asset :=
  [{ uri := "u1", fileName := some "a.jpg", name := none, mimeType := none },
   { uri := "u2", fileName := some "b.gif", name := none, mimeType := none },
   { uri := "u3", fileName := some "c.png", name := none, mimeType := none }]

/-- Read oracle that always succeeds. -/
def c3Read : String → Option String := fun _ => some "QkFTRTY0"

/-- The inbound `fileInputClick` payload
`{id:"f1", accept:"image/*", multiple:false}`. -/
def c3Request : RequestData :=
  { type := none, accept := some "image/*", multiple := false, id := "f1" }

/-- The single asset returned by the picker for that event. -/
def c3Asset : Asset :=
  { uri := "file:p.jpg", fileName := some "p.jpg", name := none,
    mimeType := some "image/jpeg" }

/-- A `fileInputClick` payload used for the contention scenario. -/
def c5Request : RequestData :=
  { type := none, accept := some "image/*", multiple := false, id := "f9" }

/-- Read oracle that always fails. -/
def c5Read : String → Option String := fun _ => none

/-! ## Shared lemmas -/

/-- `release()` always leaves the `locked` flag cleared, whether or not
a waiter was granted. -/
theorem lockStep_release_locked (s : PickerLock) :
    (lockStep s .release).1.locked = false := by
  cases h : s.queue <;> simp [lockStep, h]

/-- A step never enqueues a waiter other than the argument of an
`acquire`. -/
theorem lockStep_preserves_unqueued (s : PickerLock) (op : LockOp) (w : Nat)
    (hw : w ∉ s.queue) (hop : op ≠ LockOp.acquire w) :
    w ∉ (lockStep s op).1.queue := by
  cases op with
  | acquire v =>
      have hv : v ≠ w := fun e => hop (by rw [e])
      by_cases hl : s.locked <;> simp [lockStep, hl]
      · exact ⟨hw, fun e => hv e.symm⟩
      · exact hw
  | timeout v =>
      by_cases hq : v ∈ s.queue <;> simp [lockStep, hq]
      · intro hmem; exact hw (List.mem_of_mem_erase hmem)
      · exact hw
  | release =>
      cases hq : s.queue with
      | nil => simp [lockStep, hq]
      | cons u rest =>
          simp only [lockStep, hq]
          intro hmem
          exact hw (by rw [hq]; exact List.mem_cons_of_mem _ hmem)

/-- A step never emits a `true` resolution for a waiter that is not
queued, unless the step is that waiter's own `acquire`. -/
theorem lockStep_no_true_for_unqueued (s : PickerLock) (op : LockOp) (w : Nat)
    (hw : w ∉ s.queue) (hop : op ≠ LockOp.acquire w) :
    (w, true) ∉ (lockStep s op).2 := by
  cases op with
  | acquire v =>
      have hv : w ≠ v := fun e => hop (by rw [e])
      by_cases hl : s.locked <;> simp [lockStep, hl, hv]
  | timeout v =>
      by_cases hq : v ∈ s.queue <;> simp [lockStep, hq]
  | release =>
      cases hq : s.queue with
      | nil => simp [lockStep, hq]
      | cons u rest =>
          have hu : w ≠ u := by
            intro e; subst e; exact hw (by rw [hq]; exact List.mem_cons_self _ _)
          simp [lockStep, hq, hu]

/-- Once a waiter is out of the queue, no later run of operations can
resolve it with `true` unless it calls `acquire` again itself. -/
theorem no_true_resolution_of_unqueued (w : Nat) :
    ∀ (ops : List LockOp) (s : PickerLock), w ∉ s.queue →
      (∀ op ∈ ops, op ≠ LockOp.acquire w) →
      (w, true) ∉ (lockRun s ops).2 := by
  intro ops
  induction ops with
  | nil => intro s hw hops; simp [lockRun]
  | cons op rest ih =>
      intro s hw hops
      have hop : op ≠ LockOp.acquire w := hops op (List.mem_cons_self _ _)
      have hrest : ∀ o ∈ rest, o ≠ LockOp.acquire w :=
        fun o ho => hops o (List.mem_cons_of_mem _ ho)
      simp only [lockRun, List.mem_append]
      push_neg
      exact ⟨lockStep_no_true_for_unqueued s op w hw hop,
        ih _ (lockStep_preserves_unqueued s op w hw hop) hrest⟩

/-- A successful association lookup returns one of the table's
values. -/
theorem lookupStr_mem_values (l : List (String × String)) (k v : String)
    (h : lookupStr l k = some v) : v ∈ l.map Prod.snd := by
  induction l with
  | nil => simp [lookupStr] at h
  | cons p rest ih =>
      obtain ⟨a, b⟩ := p
      by_cases hk : k = a
      · subst hk
        rw [lookupStr, if_pos rfl] at h
        injection h with h
        simp [h]
      · rw [lookupStr, if_neg hk] at h
        simp only [List.map_cons]
        exact List.mem_cons_of_mem _ (ih h)

/-! ## Claim theorems -/

/-- Claim C1 is false of the code: after waiter 1 acquires, waiter 2
queues, and waiter 1 releases (granting waiter 2), a third `acquire()`
also resolves `true` — because `release()` cleared the `locked` flag and
the granted waiter's callback never sets it back.  The trace
`[acquire 1, acquire 2, release, acquire 3]` from the fresh lock emits
`true` to waiters 1, 2 and 3, with the state after the grant to waiter 2
being unlocked with an empty queue, so waiters 2 and 3 hold the picker
concurrently. -/
theorem C1_two_holders_after_handoff :
    (lockRun { locked := false, queue := [] }
        [.acquire 1, .acquire 2, .release, .acquire 3]).2
      = [(1, true), (2, true), (3, true)] ∧
    (lockRun { locked := false, queue := [] }
        [.acquire 1, .acquire 2, .release]).1
      = { locked := false, queue := [] } := by decide

/-- Claim C4: a queued waiter whose 5000 ms timeout fires resolves
`false`, is removed from the wait queue, and no later operation
sequence (short of that waiter calling `acquire()` afresh) can ever
resolve it with `true` — no stale grant fires after the timeout. -/
theorem C4_timeout_removes_waiter (s : PickerLock) (w : Nat)
    (ops : List LockOp) (hq : w ∈ s.queue) (hnd : s.queue.Nodup)
    (hops : ∀ op ∈ ops, op ≠ LockOp.acquire w) :
    (lockStep s (.timeout w)).2 = [(w, false)] ∧
    w ∉ (lockStep s (.timeout w)).1.queue ∧
    (w, true) ∉ (lockRun (lockStep s (.timeout w)).1 ops).2 := by
  have h1 : lockStep s (.timeout w)
      = ({ s with queue := s.queue.erase w }, [(w, false)]) := by
    simp [lockStep, hq]
  have h2 : w ∉ (lockStep s (.timeout w)).1.queue := by
    rw [h1]; exact hnd.not_mem_erase
  exact ⟨by rw [h1], h2,
    no_true_resolution_of_unqueued w ops _ h2 hops⟩

/-- Witness for C4 at the state `locked` with queued waiter 5 followed
by a `release()`: the timeout resolves waiter 5 with `false`, removes
it, and the release never resumes it. -/
theorem C4_timeout_removes_waiter_witness :
    (lockStep { locked := true, queue := [5] } (.timeout 5)).2 = [(5, false)] ∧
    5 ∉ (lockStep { locked := true, queue := [5] } (.timeout 5)).1.queue ∧
    (5, true) ∉
      (lockRun (lockStep { locked := true, queue := [5] } (.timeout 5)).1
        [.release]).2 :=
  C4_timeout_removes_waiter { locked := true, queue := [5] } 5 [.release]
    (by decide) (by decide) (by decide)

/-- Claim C8: `release()` with an empty queue clears the flag and
grants nothing; with a non-empty queue it grants exactly the waiter at
the head, which is the earliest enqueued since `acquire()` appends at
the tail (FIFO). -/
theorem C8_release_fifo :
    (∀ s : PickerLock, s.queue = [] →
        lockStep s .release = ({ locked := false, queue := [] }, [])) ∧
    (∀ (s : PickerLock) (w : Nat) (rest : List Nat), s.queue = w :: rest →
        lockStep s .release
          = ({ locked := false, queue := rest }, [(w, true)])) ∧
    (∀ (s : PickerLock) (w : Nat), s.locked = true →
        lockStep s (.acquire w)
          = ({ locked := true, queue := s.queue ++ [w] }, [])) := by
  refine ⟨?_, ?_, ?_⟩
  · intro s h; simp [lockStep, h]
  · intro s w rest h; simp [lockStep, h]
  · intro s w h
    obtain ⟨l, q⟩ := s
    simp only at h
    subst h
    simp [lockStep]

/-- Witness for C8 at concrete states: an empty-queue release, a
two-waiter release granting the earliest waiter 4, and an acquire
while locked appending waiter 6 at the tail. -/
theorem C8_release_fifo_witness :
    lockStep { locked := true, queue := [] } .release
      = ({ locked := false, queue := [] }, []) ∧
    lockStep { locked := true, queue := [4, 8] } .release
      = ({ locked := false, queue := [8] }, [(4, true)]) ∧
    lockStep { locked := true, queue := [4, 8] } (.acquire 6)
      = ({ locked := true, queue := [4, 8, 6] }, []) :=
  ⟨C8_release_fifo.1 { locked := true, queue := [] } rfl,
   C8_release_fifo.2.1 { locked := true, queue := [4, 8] } 4 [8] rfl,
   C8_release_fifo.2.2 { locked := true, queue := [4, 8] } 6 rfl⟩

/-- Claim C10: immediately after any `release()` the `locked` flag is
`false` — also when a waiter was granted — and from any unlocked state a
fresh `acquire()` succeeds synchronously, setting the flag and
resolving `true`. -/
theorem C10_release_clears_lock (s : PickerLock) :
    (lockStep s .release).1.locked = false ∧
    (s.locked = false → ∀ w : Nat,
        lockStep s (.acquire w) = ({ s with locked := true }, [(w, true)])) := by
  refine ⟨lockStep_release_locked s, ?_⟩
  intro h w
  simp [lockStep, h]

/-- Witness for C10 at the post-grant state `{locked := false,
queue := [7]}`: a release from a one-waiter state leaves the flag clear,
and a fresh `acquire()` from the resulting unlocked state resolves
`true` synchronously. -/
theorem C10_release_clears_lock_witness :
    (lockStep { locked := false, queue := [7] } .release).1.locked = false ∧
    lockStep { locked := false, queue := [7] } (.acquire 9)
      = ({ locked := true, queue := [7] }, [(9, true)]) :=
  ⟨(C10_release_clears_lock { locked := false, queue := [7] }).1,
   (C10_release_clears_lock { locked := false, queue := [7] }).2 rfl 9⟩

/-- Claim C9: from any controller state, entering fullscreen arms the
safety timer; if the timer fires with no exit event in between, the
orientation reverts to default, the status bar un-hides and the
fullscreen flag clears; an exit event before the timer fires disarms
the timer and reverts the orientation to default. -/
theorem C9_fullscreen_safety_timer (s : FsState) :
    (fsStep s (.change true)).timerArmed = true ∧
    fsStep (fsStep s (.change true)) .timerFire
      = { isVideoFullscreen := false, statusBarHidden := false,
          orientation := .portraitUp, timerArmed := false } ∧
    fsStep (fsStep s (.change true)) (.change false)
      = { isVideoFullscreen := false, statusBarHidden := false,
          orientation := .portraitUp, timerArmed := false } :=
  ⟨rfl, rfl, rfl⟩

/-- Claim C6: materialization is per-file: the batch preserves length
(never raises or aborts), the result at every position depends only on
that position's descriptor (so one failed read nulls its own entry and
leaves every other entry unchanged), and in the concrete
three-descriptor batch where only the second read fails the result is
non-null, null, non-null. -/
theorem C6_per_file_isolation :
    (∀ (read : String → Option String) (now : String) (assets : List Asset),
        (materialize read now assets).length = assets.length) ∧
    (∀ (read : String → Option String) (now : String) (assets : List Asset)
        (i : Nat),
        (materialize read now assets)[i]? = (assets[i]?).map (processAsset read now)) ∧
    materialize readSecondFails "0" threeAssets
      = [some { name := "a.jpg", type := "image/jpeg", base64 := "AAA" },
         none,
         some { name := "c.png", type := "image/png", base64 := "CCC" }] := by
  refine ⟨?_, ?_, by decide⟩
  · intro read now assets
    simp [materialize]
  · intro read now assets i
    simp [materialize, List.getElem?_map]

/-- Claim C7: the category branch is decided by substring tests in
order (`image`, then `video`, else document); `getMimeType` maps
`document.pdf` to `application/pdf`, maps the unknown extension of
`file.xyz` to `application/octet-stream`, resolves hint `video/*` to
the video category, and for every filename returns either the fallback
or a value of the fixed 19-entry table (totality of the lookup). -/
theorem C7_resolver_total :
    (∀ accept : String, strIncludes accept "image" = true →
        resolveCategory (some accept) = PickerKind.image) ∧
    (∀ accept : String, strIncludes accept "image" = false →
        strIncludes accept "video" = true →
        resolveCategory (some accept) = PickerKind.video) ∧
    (∀ accept : String, strIncludes accept "image" = false →
        strIncludes accept "video" = false →
        resolveCategory (some accept) = PickerKind.document) ∧
    getMimeType "document.pdf" = "application/pdf" ∧
    resolveCategory (some "video/*") = PickerKind.video ∧
    getMimeType "file.xyz" = "application/octet-stream" ∧
    (∀ filename : String,
        getMimeType filename = "application/octet-stream" ∨
          getMimeType filename ∈ mimeTypes.map Prod.snd) := by
  refine ⟨?_, ?_, ?_, by decide, by decide, by decide, ?_⟩
  · intro a h
    simp [resolveCategory, acceptIncludes, h]
  · intro a h1 h2
    simp [resolveCategory, acceptIncludes, h1, h2]
  · intro a h1 h2
    simp [resolveCategory, acceptIncludes, h1, h2]
  · intro f
    unfold getMimeType
    cases h : lookupStr mimeTypes (String.mk ((extSegment f.data).map Char.toLower)) with
    | none => left; simp [h]
    | some v => right; simp only [h, Option.getD_some]
                exact lookupStr_mem_values mimeTypes _ v h

/-- Witness for C7's conditional clauses at concrete accept hints:
`image/*` resolves to the image category, `video/*` to video, and
`.doc,.docx` (containing neither substring) to document. -/
theorem C7_resolver_total_witness :
    resolveCategory (some "image/*") = PickerKind.image ∧
    resolveCategory (some "video/*") = PickerKind.video ∧
    resolveCategory (some ".doc,.docx") = PickerKind.document :=
  ⟨C7_resolver_total.1 "image/*" (by decide),
   C7_resolver_total.2.1 "video/*" (by decide) (by decide),
   C7_resolver_total.2.2.1 ".doc,.docx" (by decide) (by decide)⟩

/-- Claim C2: whenever `handleFileSelection` starts with the gate free
(so its `acquire()` succeeds), every exit path of the session —
cancellation or empty selection, all-files-failed materialization,
successful completion, and a thrown picker error — performs exactly one
`release()`, and the session never returns with the lock's flag still
set. -/
theorem C2_gate_released_on_every_path (isAndroid : Bool) (s : PickerLock)
    (read : String → Option String) (now : String) (pick : PickerOutcome)
    (accept : Option String) (multiple : Bool) (targetId : String)
    (h : s.locked = false) :
    ((handleFileSelection isAndroid s read now pick accept multiple
        targetId).effects.countP isLockReleased) = 1 ∧
    (handleFileSelection isAndroid s read now pick accept multiple
        targetId).lock.locked = false := by
  cases hcat : resolveCategory accept <;>
    cases pick <;>
      cases isAndroid <;>
        simp [handleFileSelection, h, hcat, List.countP_append,
          List.countP_cons, isLockReleased, lockStep_release_locked] <;>
        · split <;> (try split) <;>
            simp [List.countP_append, List.countP_cons, isLockReleased,
              lockStep_release_locked]

/-- Witness for C2 at a concrete session: gate initially free, user
cancels the picker; the session performs exactly one release and
leaves the lock free. -/
theorem C2_gate_released_on_every_path_witness :
    ((handleFileSelection true { locked := false, queue := [] } c3Read "0"
        PickerOutcome.canceled (some "image/*") false "f1").effects.countP
      isLockReleased) = 1 ∧
    (handleFileSelection true { locked := false, queue := [] } c3Read "0"
        PickerOutcome.canceled (some "image/*") false "f1").lock.locked
      = false :=
  C2_gate_released_on_every_path true { locked := false, queue := [] } c3Read
    "0" PickerOutcome.canceled (some "image/*") false "f1" rfl

/-- Claim C3 is false of the code: on the end-to-end event
`{type: fileInputClick, data: {id: f1, accept: image/*,
multiple: false}}` with the gate free, one selected asset and a
successful read, the session returns `true` and even toasts
"Files attached successfully!", yet performs no `injectJavaScript`
effect whatsoever — the reconstruction-script injection is commented
out in the source, so no script referencing `f1` is ever injected
before (or after) the release. -/
theorem C3_no_injection_on_success :
    (handleFileInputRequest true { locked := false, queue := [] } c3Read "0"
        (PickerOutcome.selected [c3Asset]) (some c3Request)).result = true ∧
    (handleFileInputRequest true { locked := false, queue := [] } c3Read "0"
        (PickerOutcome.selected [c3Asset]) (some c3Request)).effects.contains
      (Effect.toast "Files attached successfully!") = true ∧
    ((handleFileInputRequest true { locked := false, queue := [] } c3Read "0"
        (PickerOutcome.selected [c3Asset]) (some c3Request)).effects.all
      fun e => !isInjection e) = true := by decide

/-- Claim C5 as stated is false of the code off Android: a
`fileInputClick` arriving while the gate is locked produces only a
console log — no toast and no alert, hence no user-visible contention
notice — on a platform other than Android. -/
theorem C5_no_user_notice_off_android :
    (handleFileInputRequest false { locked := true, queue := [] } c5Read "0"
        PickerOutcome.canceled (some c5Request)).effects
      = [Effect.log "File picker already active. Ignoring request."] ∧
    isUserNotice (Effect.log "File picker already active. Ignoring request.")
      = false := by decide

/-- Claim C5, amended: while the gate is locked, `handleFileInputRequest`
drops the event — the lock state (hence the waiter queue) is unchanged,
the call returns `false`, and no picker is invoked; the user-visible
contention toast is issued on Android only, while off Android the only
output is a console log with no user-visible notice. -/
theorem C5_contention_drop (isAndroid : Bool) (s : PickerLock)
    (read : String → Option String) (now : String) (pick : PickerOutcome)
    (data : Option RequestData) (h : s.locked = true) :
    (handleFileInputRequest isAndroid s read now pick data).lock = s ∧
    (handleFileInputRequest isAndroid s read now pick data).result = false ∧
    ((handleFileInputRequest isAndroid s read now pick data).effects.all
      fun e => !isPickerInvocation e) = true ∧
    (isAndroid = true →
      Effect.toast "Another file selection is in progress" ∈
        (handleFileInputRequest isAndroid s read now pick data).effects) ∧
    (isAndroid = false →
      ((handleFileInputRequest isAndroid s read now pick data).effects.all
        fun e => !isUserNotice e) = true) := by
  cases isAndroid <;>
    simp [handleFileInputRequest, h, isPickerInvocation, isUserNotice]

/-- Witness for the amended C5 on Android with a queued waiter: the
event is dropped, the queue is untouched, no picker runs, and the
contention toast is shown. -/
theorem C5_contention_drop_witness :
    (handleFileInputRequest true { locked := true, queue := [3] } c5Read "0"
        PickerOutcome.canceled (some c5Request)).lock
      = { locked := true, queue := [3] } ∧
    (handleFileInputRequest true { locked := true, queue := [3] } c5Read "0"
        PickerOutcome.canceled (some c5Request)).result = false ∧
    ((handleFileInputRequest true { locked := true, queue := [3] } c5Read "0"
        PickerOutcome.canceled (some c5Request)).effects.all
      fun e => !isPickerInvocation e) = true ∧
    (true = true →
      Effect.toast "Another file selection is in progress" ∈
        (handleFileInputRequest true { locked := true, queue := [3] } c5Read
          "0" PickerOutcome.canceled (some c5Request)).effects) ∧
    (true = false →
      ((handleFileInputRequest true { locked := true, queue := [3] } c5Read
          "0" PickerOutcome.canceled (some c5Request)).effects.all
        fun e => !isUserNotice e) = true) :=
  C5_contention_drop true { locked := true, queue := [3] } c5Read "0"
    PickerOutcome.canceled (some c5Request) rfl

end Zyno
